import Mathlib

/-!
Verification development for the TradeMemory Protocol reflection and
adjustment engine.  The repository ships only documentation, scripts and
setup material for the core modules (`src/tradememory/reflection.py`,
`src/tradememory/journal.py`, `src/tradememory/db.py` are referenced by
`docs/ARCHITECTURE` but their Python sources are not part of the snapshot),
so every operation below is modelled from the specification and from the
behavioural contracts stated in the shipped documentation
(`docs/REFLECTION_ENGINE_GUIDE.md`, `docs/API.md`, `docs/SCHEMA.md`).
Money, rates and confidence scores are modelled as rationals.
-/

namespace TradeMemory

/-- Modelled from the spec: trade direction (`long` or `short`) of a
`TradeRecord`; the Pydantic model lives in the missing
`src/tradememory/models.py`. -/
inductive Direction
| long
| short
deriving DecidableEq

/-- Modelled from the spec: the outcome fields of a closed trade (realized
P&L in account currency and the optional P&L in R-multiples), absent while
the trade is open.  The full record in the missing `models.py` carries more
exit fields; only the ones the reflection engine reads are modelled. -/
structure Outcome where
  pnl : ℚ
  pnl_r : Option ℚ
deriving DecidableEq

/-- Modelled from the spec: a `TradeRecord` as described in `docs/SCHEMA.md`
(the Pydantic source is missing from the snapshot).  `session` is optional:
a trade missing the dimension value goes to an explicit `unknown` bucket. -/
structure TradeRecord where
  id : String
  timestamp : Nat
  symbol : String
  direction : Direction
  lotSize : ℚ
  strategy : String
  confidence : ℚ
  session : Option String
  reasoning : String
  outcome : Option Outcome
deriving DecidableEq

/-- Minimum number of decided (win or loss) trades needed before a win rate
is reported; below it the metrics carry the insufficient-data marker. -/
def MIN_SAMPLE : Nat := 1

/-- Minimum evidence threshold for pattern discovery (default 4). -/
def MIN_EVIDENCE : Nat := 4

/-- High-confidence threshold (default 0.7) used for the mistakes call-out. -/
def HIGH_CONF : ℚ := 7/10

/-- Modelled from the spec: the ephemeral performance summary produced by the
metrics aggregator (`_calculate_daily_metrics` in the missing
`reflection.py`). -/
structure PerformanceMetrics where
  trade_count : Nat
  winners : Nat
  losers : Nat
  net_pnl : ℚ
  win_rate : ℚ
  avg_r : ℚ
  insufficient_data : Bool
deriving DecidableEq

/-- Realized P&L values of the closed trades, in input order. -/
def closedPnls (trades : List TradeRecord) : List ℚ :=
  trades.filterMap (fun t => t.outcome.map (fun o => o.pnl))

/-- Modelled from the spec: `compute_metrics` of the metrics aggregator.  A
winner is a closed trade with P&L strictly above zero, a loser one strictly
below zero; zero-P&L trades count in neither but stay in the trade count.
The win rate is winners over decided trades, guarded by `MIN_SAMPLE`. -/
def compute_metrics (trades : List TradeRecord) : PerformanceMetrics :=
  let pnls := closedPnls trades
  let winners := pnls.countP (fun p => decide (0 < p))
  let losers := pnls.countP (fun p => decide (p < 0))
  let rs := trades.filterMap (fun t => t.outcome.bind (fun o => o.pnl_r))
  let denom := winners + losers
  { trade_count := trades.length
    winners := winners
    losers := losers
    net_pnl := pnls.sum
    win_rate := if MIN_SAMPLE ≤ denom then (winners : ℚ) / (denom : ℚ) else 0
    avg_r := if rs.length = 0 then 0 else rs.sum / (rs.length : ℚ)
    insufficient_data := decide (denom < MIN_SAMPLE) }

/-- Categorical dimensions used for segmentation and pattern discovery. -/
inductive DimKind
| session
| strategy
| confBand
| direction
deriving DecidableEq

/-- Render a direction as the tag used inside dimension keys. -/
def dirStr : Direction → String
  | .long => "long"
  | .short => "short"

/-- The opposite trading direction. -/
def oppDir : Direction → Direction
  | .long => .short
  | .short => .long

/-- Modelled from the spec: confidence-band bucketing with the illustrative
boundaries of the spec (above 0.75 high, below 0.55 low). -/
def confBandOf (c : ℚ) : String :=
  if 3/4 < c then ("high") else if c < 11/20 then ("low") else ("medium")

/-- Segment key of a trade along a dimension; a trade missing the session
value lands in the explicit `unknown` bucket, never silently dropped. -/
def dimKey (d : DimKind) (t : TradeRecord) : String :=
  match d with
  | .session => t.session.getD ("unknown")
  | .strategy => t.strategy
  | .confBand => confBandOf t.confidence
  | .direction => t.symbol ++ (":") ++ t.strategy ++ (":") ++ dirStr t.direction

/-- Trades of one segment of a dimension, in input order. -/
def segmentOf (trades : List TradeRecord) (d : DimKind) (k : String) : List TradeRecord :=
  trades.filter (fun t => dimKey d t == k)

/-- Modelled from the spec: `compute_segmented_metrics` groups trades by the
requested categorical dimension and computes the same statistics per group. -/
def compute_segmented_metrics (trades : List TradeRecord) (d : DimKind) :
    List (String × PerformanceMetrics) :=
  ((trades.map (dimKey d)).dedup).map
    (fun k => (k, compute_metrics (segmentOf trades d k)))

/-- Qualitative edge classification of a segment. -/
inductive Edge
| highEdge
| weak
| neutral
deriving DecidableEq

/-- Modelled from the spec: a discovered `Pattern` with its evidence list of
trade ids and its own confidence score. -/
structure Pattern where
  dim : DimKind
  key : String
  win_rate : ℚ
  sample_size : Nat
  net_pnl : ℚ
  edge : Edge
  evidence : List String
  pconf : ℚ
deriving DecidableEq

/-- Fixed-threshold classification: HIGH_EDGE when the win rate is at least
0.65 and net P&L is positive, WEAK when the win rate is at most 0.35,
NEUTRAL otherwise. -/
def classify (wr netp : ℚ) : Edge :=
  if 65/100 ≤ wr ∧ 0 < netp then .highEdge
  else if wr ≤ 35/100 then .weak
  else .neutral

/-- Pattern confidence: `min(1, n/20) * abs(win_rate - 0.5) * 2`. -/
def patternConf (n : Nat) (wr : ℚ) : ℚ :=
  min 1 ((n : ℚ) / 20) * (|wr - 1/2| * 2)

/-- Modelled from the spec: patterns of one dimension.  Segments whose sample
size is below `MIN_EVIDENCE` are omitted entirely; evidence is the explicit
list of contributing trade ids. -/
def patternsForDim (trades : List TradeRecord) (d : DimKind) : List Pattern :=
  ((trades.map (dimKey d)).dedup).filterMap (fun k =>
    if MIN_EVIDENCE ≤ (segmentOf trades d k).length then
      some { dim := d
             key := k
             win_rate := (compute_metrics (segmentOf trades d k)).win_rate
             sample_size := (segmentOf trades d k).length
             net_pnl := (compute_metrics (segmentOf trades d k)).net_pnl
             edge := classify (compute_metrics (segmentOf trades d k)).win_rate
                      (compute_metrics (segmentOf trades d k)).net_pnl
             evidence := (segmentOf trades d k).map (fun t => t.id)
             pconf := patternConf (segmentOf trades d k).length
                      (compute_metrics (segmentOf trades d k)).win_rate }
    else none)

/-- Modelled from the spec: `discover_patterns` over a list of requested
dimensions. -/
def discover_patterns (trades : List TradeRecord) (dims : List DimKind) : List Pattern :=
  dims.flatMap (patternsForDim trades)

/-- Boolean test that `p` starts the character list `s`. -/
def leadsWith : List Char → List Char → Bool
  | [], _ => true
  | _ :: _, [] => false
  | a :: as, b :: bs => a == b && leadsWith as bs

/-- Boolean test that `p` occurs contiguously inside the character list. -/
def charsContain (p : List Char) : List Char → Bool
  | [] => p.isEmpty
  | b :: bs => leadsWith p (b :: bs) || charsContain p bs

/-- Substring containment on strings, via the character lists. -/
def containsSub (pat s : String) : Bool :=
  charsContain pat.toList s.toList

/-- The header token carrying the exact period identifier, as documented in
`docs/REFLECTION_ENGINE_GUIDE.md`. -/
def headerLine (period : String) : String :=
  ("=== DAILY SUMMARY: ") ++ period ++ (" ===")

/-- Number of the three optional section labels present in the text. -/
def optCount (text : String) : Nat :=
  (if containsSub ("KEY OBSERVATIONS:") text then 1 else 0) +
  (if containsSub ("MISTAKES:") text then 1 else 0) +
  (if containsSub ("TOMORROW:") text then 1 else 0)

/-- Modelled from the spec: `_validate_llm_output` of the missing
`reflection.py`, following the contract in
`docs/REFLECTION_ENGINE_GUIDE.md`: the header with the correct date,
a `PERFORMANCE:` label, the `Trades:` and `Win Rate:` tokens, and at least
two of the three optional section labels. -/
def validate (text period : String) : Bool :=
  containsSub (headerLine period) text &&
  containsSub ("PERFORMANCE:") text &&
  containsSub ("Trades:") text &&
  containsSub ("Win Rate:") text &&
  decide (2 ≤ optCount text)

/-- Deterministic template used when the period has no trades at all. -/
def noTradesReport (period : String) : String :=
  headerLine period ++ ("\n\nNo trades today.")

/-- A mistake in the sense of the rule-based report: confidence strictly
above `HIGH_CONF` yet the trade lost money. -/
def highConfLoss (t : TradeRecord) : Bool :=
  decide (HIGH_CONF < t.confidence) &&
  (match t.outcome with
   | some o => decide (o.pnl < 0)
   | none => false)

/-- MISTAKES block of the rule-based template. -/
def mistakesBlock (trades : List TradeRecord) : String :=
  if (trades.filter highConfLoss).isEmpty then ("MISTAKES:\n- None detected\n\n")
  else
    ("MISTAKES:\n") ++
    String.join ((trades.filter highConfLoss).map
      (fun t => ("- High confidence trade lost money: ") ++ t.id ++ ("\n"))) ++
    ("\n")

/-- Observation line derived from the win rate. -/
def obsLine (m : PerformanceMetrics) : String :=
  if 6/10 ≤ m.win_rate then ("Win rate above 60 percent indicates edge is present")
  else ("Win rate at or below 60 percent; review entry criteria")

/-- Forward-looking suggestion line derived from the win rate. -/
def tomorrowLine (m : PerformanceMetrics) : String :=
  if m.win_rate < 1/2 then ("Reduce exposure until win rate recovers")
  else ("Continue current strategy, watch for reversal signals")

/-- Modelled from the spec: `render_rule_based_report`
(`_generate_rule_based_summary` in the missing `reflection.py`), a fully
deterministic template with the header, a performance block, observations,
the high-confidence-loss call-out and a forward-looking suggestion. -/
def render_rule_based_report (period : String) (trades : List TradeRecord)
    (m : PerformanceMetrics) : String :=
  if m.trade_count == 0 then noTradesReport period
  else
    headerLine period ++ ("\n\nPERFORMANCE:\nTrades: ") ++ toString m.trade_count ++
    (" | Winners: ") ++ toString m.winners ++ (" | Losers: ") ++ toString m.losers ++
    ("\nNet P&L: $") ++ toString m.net_pnl ++ (" | Win Rate: ") ++ toString m.win_rate ++
    (" | Avg R: ") ++ toString m.avg_r ++
    ("\n\nKEY OBSERVATIONS:\n- ") ++ obsLine m ++ ("\n\n") ++ mistakesBlock trades ++
    ("TOMORROW:\n- ") ++ tomorrowLine m ++ ("\n")

/-- Result of one invocation of the injected text-generation callback: a
text, a raised error, or a non-text return value. -/
inductive GenOutcome
| ok (text : String)
| exn
| nonText
deriving DecidableEq

/-- Why a report fell back to the deterministic template. -/
inductive FallReason
| noGenerator
| generatorError
| validationFailed
deriving DecidableEq

/-- Modelled from the spec: the `ReflectionReport` result object with the
fallback flag and the reason note. -/
structure ReflectionReport where
  period : String
  metrics : PerformanceMetrics
  narrative : String
  used_fallback : Bool
  fall_reason : Option FallReason
deriving DecidableEq

/-- Structured prompt embedding the period, the metrics and a bounded sample
of trade reasoning text. -/
def buildPrompt (period : String) (trades : List TradeRecord)
    (m : PerformanceMetrics) : String :=
  ("You are a trading coach. Analyze the day ") ++ period ++
  (". Trades: ") ++ toString m.trade_count ++ (", win rate: ") ++ toString m.win_rate ++
  (". Sample reasoning: ") ++
  String.join ((trades.take 5).map (fun t => t.reasoning ++ (" ")))

/-- Report value produced by the fallback path, annotated with the reason. -/
def fallbackReport (period : String) (trades : List TradeRecord)
    (m : PerformanceMetrics) (r : FallReason) : ReflectionReport :=
  { period := period
    metrics := m
    narrative := render_rule_based_report period trades m
    used_fallback := true
    fall_reason := some r }

/-- Modelled from the spec: `generate_report` of the narrative generator.
The second component counts how many times the injected callback was
invoked (the one-shot policy: at most one attempt, immediate fallback on
any failure, no retry).  The callback is modelled as a function from the
prompt to the outcome of its single invocation. -/
def generate_report (period : String) (trades : List TradeRecord)
    (m : PerformanceMetrics) (gen : Option (String → GenOutcome)) :
    ReflectionReport × Nat :=
  match gen with
  | none => (fallbackReport period trades m .noGenerator, 0)
  | some f =>
    match f (buildPrompt period trades m) with
    | .exn => (fallbackReport period trades m .generatorError, 1)
    | .nonText => (fallbackReport period trades m .generatorError, 1)
    | .ok t =>
      if validate t period then
        ({ period := period
           metrics := m
           narrative := t
           used_fallback := false
           fall_reason := none }, 1)
      else (fallbackReport period trades m .validationFailed, 1)

/-- The generator is omitted, or its single invocation raises, returns a
non-text value, or returns text that fails validation. -/
def genFails (gen : Option (String → GenOutcome)) (prompt period : String) : Prop :=
  match gen with
  | none => True
  | some f =>
    match f prompt with
    | .exn => True
    | .nonText => True
    | .ok t => validate t period = false

/-- Lifecycle status of a strategy adjustment. -/
inductive AdjStatus
| proposed
| approved
| rejected
| applied
deriving DecidableEq, BEq

/-- The fixed enumeration of adjustment types of the rule engine. -/
inductive AdjType
| strategyDisable
| strategyPrefer
| sessionReduce
| sessionIncrease
| directionRestrict
deriving DecidableEq

/-- Modelled from the spec: a persisted `StrategyAdjustment` value with its
lifecycle status, old/new parameter values and supporting evidence.  The
lifecycle operations are listed as Phase 2 in `docs/API.md` and their
Python source is not in the snapshot. -/
structure StrategyAdjustment where
  id : String
  adjType : AdjType
  target : String
  oldValue : ℚ
  newValue : ℚ
  justification : String
  status : AdjStatus
  evidence : List String
deriving DecidableEq

/-- Configuration consumed by the adjustment rule engine: current maximum
position sizes per session and per strategy, the size cap and the fixed
increase multiplier. -/
structure AdjustConfig where
  sessionMax : String → ℚ
  strategyMax : String → ℚ
  sizeCap : ℚ
  sizeMult : ℚ

/-- Justification text built from the pattern's measured numbers. -/
def justifyFrom (p : Pattern) : String :=
  ("win rate ") ++ toString p.win_rate ++ (" over ") ++
  toString p.sample_size ++ (" trades")

/-- Construct a freshly proposed adjustment from a triggering pattern. -/
def mkAdj (ty : AdjType) (tgt : String) (ov nv : ℚ) (p : Pattern) :
    StrategyAdjustment :=
  { id := ("ADJ-") ++ tgt ++ ("-") ++ toString p.sample_size
    adjType := ty
    target := tgt
    oldValue := ov
    newValue := nv
    justification := justifyFrom p
    status := .proposed
    evidence := p.evidence }

/-- Characters of `s` ending with the characters of `suf`. -/
def endsWithStr (suf s : String) : Bool :=
  leadsWith suf.toList.reverse s.toList.reverse

/-- First `n` characters of a string. -/
def strTake (s : String) (n : Nat) : String :=
  String.mk (s.toList.take n)

/-- Swap the trailing direction tag of a direction-dimension key. -/
def swapDirKey (s : String) : String :=
  if endsWithStr (":long") s then strTake s (s.toList.length - 5) ++ (":short")
  else if endsWithStr (":short") s then strTake s (s.toList.length - 6) ++ (":long")
  else s

/-- Modelled from the spec: the five fixed deterministic rules, evaluated
independently per matching pattern.  Rule 5 fires only when the opposite
direction of the same symbol/strategy shows no WEAK pattern. -/
def rulesFor (cfg : AdjustConfig) (ps : List Pattern) (p : Pattern) :
    List StrategyAdjustment :=
  (if p.dim = DimKind.strategy ∧ p.edge = Edge.weak ∧ p.win_rate ≤ 3/10 ∧
      MIN_EVIDENCE ≤ p.sample_size then
    [mkAdj .strategyDisable p.key (cfg.strategyMax p.key) 0 p] else []) ++
  (if p.dim = DimKind.strategy ∧ p.edge = Edge.highEdge then
    [mkAdj .strategyPrefer p.key (cfg.strategyMax p.key)
      (min (cfg.strategyMax p.key * cfg.sizeMult) cfg.sizeCap) p] else []) ++
  (if p.dim = DimKind.session ∧ p.edge = Edge.weak then
    [mkAdj .sessionReduce p.key (cfg.sessionMax p.key)
      (cfg.sessionMax p.key / 2) p] else []) ++
  (if p.dim = DimKind.session ∧ p.edge = Edge.highEdge then
    [mkAdj .sessionIncrease p.key (cfg.sessionMax p.key)
      (min (cfg.sessionMax p.key * cfg.sizeMult) cfg.sizeCap) p] else []) ++
  (if p.dim = DimKind.direction ∧ p.edge = Edge.weak ∧
      ps.any (fun q => decide (q.dim = DimKind.direction) &&
        (q.key == swapDirKey p.key) && decide (q.edge = Edge.weak)) = false then
    [mkAdj .directionRestrict (swapDirKey p.key) 0 0 p] else [])

/-- Unresolved (proposed or approved) adjustment already targeting `tgt`. -/
def unresolvedFor (existing : List StrategyAdjustment) (tgt : String) : Bool :=
  existing.any (fun e => (e.target == tgt) &&
    ((e.status == AdjStatus.proposed) || (e.status == AdjStatus.approved)))

/-- Modelled from the spec: `generate_adjustments` runs the five rules over
the patterns and drops proposals whose target already carries an unresolved
adjustment in the supplied list. -/
def generate_adjustments (ps : List Pattern) (existing : List StrategyAdjustment)
    (cfg : AdjustConfig) : List StrategyAdjustment :=
  (ps.flatMap (rulesFor cfg ps)).filter (fun a => !(unresolvedFor existing a.target))

/-- The lifecycle-contract violation signal. -/
inductive TransErr
| invalidTransition
deriving DecidableEq

/-- The closed transition table of the status lifecycle: proposed may move to
approved or rejected, approved may move to applied, nothing else. -/
def allowedTransition : AdjStatus → AdjStatus → Bool
  | .proposed, .approved => true
  | .proposed, .rejected => true
  | .approved, .applied => true
  | _, _ => false

/-- Modelled from the spec: the single shared invariant-checker all three
lifecycle operations route through. -/
def setStatus (a : StrategyAdjustment) (s : AdjStatus) :
    Except TransErr StrategyAdjustment :=
  if allowedTransition a.status s then .ok { a with status := s }
  else .error .invalidTransition

/-- Modelled from the spec: `approve`, allowed only from `proposed`. -/
def approveAdj (a : StrategyAdjustment) : Except TransErr StrategyAdjustment :=
  setStatus a .approved

/-- Modelled from the spec: `reject`, allowed only from `proposed`. -/
def rejectAdj (a : StrategyAdjustment) : Except TransErr StrategyAdjustment :=
  setStatus a .rejected

/-- Modelled from the spec: `apply`, allowed only from `approved`. -/
def applyAdj (a : StrategyAdjustment) : Except TransErr StrategyAdjustment :=
  setStatus a .applied

/-- Stored value after a lifecycle call: the updated value on success, the
unchanged value when the transition was rejected. -/
def lifecycleRun (f : StrategyAdjustment → Except TransErr StrategyAdjustment)
    (a : StrategyAdjustment) : StrategyAdjustment :=
  match f a with
  | .ok b => b
  | .error _ => a

/-- Query filter of the trade history endpoint: optional strategy and symbol
filters plus a result limit. -/
structure QueryFilter where
  strategyF : Option String
  symbolF : Option String
  limit : Nat

/-- A trade matches the filter when every supplied field agrees. -/
def matchesFilter (q : QueryFilter) (t : TradeRecord) : Bool :=
  (match q.strategyF with
   | none => true
   | some s => t.strategy == s) &&
  (match q.symbolF with
   | none => true
   | some s => t.symbol == s)

/-- Newest-first order on trade records (descending timestamps). -/
def newerFirst (a b : TradeRecord) : Prop :=
  b.timestamp ≤ a.timestamp

instance : DecidableRel newerFirst :=
  fun a b => inferInstanceAs (Decidable (b.timestamp ≤ a.timestamp))

instance : IsTotal TradeRecord newerFirst :=
  ⟨fun a b => Nat.le_total b.timestamp a.timestamp⟩

instance : IsTrans TradeRecord newerFirst :=
  ⟨fun _ _ _ hab hbc => Nat.le_trans hbc hab⟩

/-- Modelled from the spec: `query_history` of the trade journal (source
`src/tradememory/journal.py` is missing from the snapshot).  Per
`docs/API.md` the matching trades are returned ordered by timestamp
descending, newest first, truncated to the limit. -/
def query_history (store : List TradeRecord) (q : QueryFilter) : List TradeRecord :=
  (List.insertionSort newerFirst (store.filter (matchesFilter q))).take q.limit

/-- Errors of `record_outcome`: unknown trade id, or outcome already set. -/
inductive RecErr
| notFound
| alreadyRecorded
deriving DecidableEq

/-- Write the outcome fields into a trade record. -/
def applyOutcome (t : TradeRecord) (oc : Outcome) : TradeRecord :=
  { t with outcome := some oc }

/-- Modelled from the spec: `record_outcome` of the trade journal (source
missing from the snapshot).  Per `docs/SCHEMA.md` a trade outcome can only
be recorded once per trade id, and per `docs/API.md` an unknown id is an
error. -/
def record_outcome (store : List TradeRecord) (tid : String) (oc : Outcome) :
    Except RecErr (List TradeRecord) :=
  match store.find? (fun t => t.id == tid) with
  | none => .error .notFound
  | some t =>
    if t.outcome.isSome then .error .alreadyRecorded
    else .ok (store.map (fun u => if u.id == tid then applyOutcome u oc else u))

/-- Stored records and success flag after a `record_outcome` call: on error
the store is left unchanged. -/
def runRecordOutcome (store : List TradeRecord) (tid : String) (oc : Outcome) :
    List TradeRecord × Bool :=
  match record_outcome store tid oc with
  | .ok s => (s, true)
  | .error _ => (store, false)

/-- Helper building a closed trade with the given id, timestamp, session,
strategy, confidence and realized P&L. -/
def mkTrade (i : String) (ts : Nat) (sess strat : String) (conf pnl : ℚ) :
    TradeRecord :=
  { id := i
    timestamp := ts
    symbol := ("XAUUSD")
    direction := .long
    lotSize := 1/10
    strategy := strat
    confidence := conf
    session := some sess
    reasoning := ("")
    outcome := some { pnl := pnl, pnl_r := none } }

/-- Helper building an open trade (no outcome yet). -/
def mkOpen (i : String) (ts : Nat) : TradeRecord :=
  { id := i
    timestamp := ts
    symbol := ("XAUUSD")
    direction := .long
    lotSize := 1/10
    strategy := ("VolBreakout")
    confidence := 1/2
    session := some ("asian")
    reasoning := ("")
    outcome := none }

/-- Scenario A of the spec: five trades, all in session asian, one win and
four losses. -/
def scenATrades : List TradeRecord :=
  [ mkTrade ("T1") 1 ("asian") ("VolBreakout") (6/10) 10
  , mkTrade ("T2") 2 ("asian") ("VolBreakout") (6/10) (-5)
  , mkTrade ("T3") 3 ("asian") ("VolBreakout") (6/10) (-5)
  , mkTrade ("T4") 4 ("asian") ("VolBreakout") (6/10) (-5)
  , mkTrade ("T5") 5 ("asian") ("VolBreakout") (6/10) (-5) ]

/-- Configuration used in the concrete scenarios: every session and strategy
currently allows 0.1 lots, capped at 0.2, multiplier 1.5. -/
def scenCfg : AdjustConfig :=
  { sessionMax := fun _ => 1/10
    strategyMax := fun _ => 1/10
    sizeCap := 1/5
    sizeMult := 3/2 }

/-- The WEAK pattern Scenario A is expected to discover. -/
def scenAPattern : Pattern :=
  { dim := DimKind.session
    key := ("asian")
    win_rate := 1/5
    sample_size := 5
    net_pnl := -10
    edge := Edge.weak
    evidence := [("T1"), ("T2"), ("T3"), ("T4"), ("T5")]
    pconf := 3/20 }

end TradeMemory

namespace TradeMemory

/-- C2: `validate` returns false for every candidate text that does not
contain the exact period identifier (the `=== DAILY SUMMARY: date ===`
header with the correct date), even if the text is otherwise well-formed. -/
theorem validate_requires_period_header (text period : String)
    (h : containsSub (headerLine period) text = false) :
    validate text period = false := by
  simp [validate, h]

/-- Witness for C2: a text carrying every other required element but no
period header is rejected. -/
theorem validate_requires_period_header_witness :
    validate
      ("PERFORMANCE:\nTrades: 3 | Win Rate: 0.5\nKEY OBSERVATIONS:\n- x\nMISTAKES:\n- y\nTOMORROW:\n- z")
      ("2026-02-23") = false :=
  validate_requires_period_header _ _ (by decide)

/-- C6: `generate_report` with no generator callback is deterministic: two
calls with identical period, trades and metrics produce byte-identical
narrative text, namely the deterministic rule-based template. -/
theorem generate_report_none_deterministic
    (p1 p2 : String) (t1 t2 : List TradeRecord) (m1 m2 : PerformanceMetrics)
    (hp : p1 = p2) (ht : t1 = t2) (hm : m1 = m2) :
    (generate_report p1 t1 m1 none).1.narrative =
      (generate_report p2 t2 m2 none).1.narrative ∧
    (generate_report p1 t1 m1 none).1.narrative =
      render_rule_based_report p1 t1 m1 := by
  subst hp; subst ht; subst hm
  exact ⟨rfl, rfl⟩

/-- Witness for C6: two identical rule-based calls on Scenario A data give
the same bytes. -/
theorem generate_report_none_deterministic_witness :
    (generate_report ("2026-02-23") scenATrades (compute_metrics scenATrades) none).1.narrative =
      (generate_report ("2026-02-23") scenATrades (compute_metrics scenATrades) none).1.narrative ∧
    (generate_report ("2026-02-23") scenATrades (compute_metrics scenATrades) none).1.narrative =
      render_rule_based_report ("2026-02-23") scenATrades (compute_metrics scenATrades) :=
  generate_report_none_deterministic _ _ _ _ _ _ rfl rfl rfl

/-- C8: on an empty trade sequence the aggregator returns the zero-valued
metrics object with the insufficient-data marker set, the report generator
returns the deterministic no-trades template, and pattern discovery returns
the empty list. -/
theorem empty_input_graceful :
    compute_metrics ([] : List TradeRecord) =
      { trade_count := 0, winners := 0, losers := 0, net_pnl := 0,
        win_rate := 0, avg_r := 0, insufficient_data := true } ∧
    (∀ period : String,
      (generate_report period [] (compute_metrics []) none).1.narrative =
        noTradesReport period) ∧
    (∀ dims : List DimKind, discover_patterns ([] : List TradeRecord) dims = []) := by
  refine ⟨by decide, fun period => rfl, fun dims => ?_⟩
  induction dims with
  | nil => rfl
  | cons d ds ih =>
    simp only [discover_patterns] at ih ⊢
    simp [List.flatMap_cons, patternsForDim, ih]

/-- Counting the strictly positive and the strictly negative entries of a
list of rationals never exceeds its length (a zero entry is in neither
count). -/
theorem countP_pos_neg_le (l : List ℚ) :
    l.countP (fun p => decide (0 < p)) + l.countP (fun p => decide (p < 0)) ≤
      l.length := by
  induction l with
  | nil => simp
  | cons a l ih =>
    simp only [List.countP_cons, List.length_cons]
    by_cases h1 : (0 : ℚ) < a
    · have h2 : ¬ a < 0 := lt_asymm h1
      simp [h1, h2]
      omega
    · by_cases h2 : a < 0
      · simp [h1, h2]
        omega
      · simp [h1, h2]
        omega

/-- C4: the win rate is always in [0, 1]; when the number of decided trades
reaches `MIN_SAMPLE` it equals exactly winners over winners plus losers,
and otherwise it is 0 with the insufficient-data marker set.  Winners and
losers together never exceed the trade count (a zero-P&L trade is neither,
yet stays counted). -/
theorem compute_metrics_win_rate (trades : List TradeRecord) :
    0 ≤ (compute_metrics trades).win_rate ∧
    (compute_metrics trades).win_rate ≤ 1 ∧
    (MIN_SAMPLE ≤ (compute_metrics trades).winners + (compute_metrics trades).losers →
      (compute_metrics trades).win_rate =
        ((compute_metrics trades).winners : ℚ) /
          (((compute_metrics trades).winners : ℚ) + ((compute_metrics trades).losers : ℚ))) ∧
    ((compute_metrics trades).winners + (compute_metrics trades).losers < MIN_SAMPLE →
      (compute_metrics trades).win_rate = 0 ∧
      (compute_metrics trades).insufficient_data = true) ∧
    (compute_metrics trades).winners + (compute_metrics trades).losers ≤
      (compute_metrics trades).trade_count := by
  simp only [compute_metrics]
  by_cases h : MIN_SAMPLE ≤
      (closedPnls trades).countP (fun p => decide (0 < p)) +
      (closedPnls trades).countP (fun p => decide (p < 0))
  · refine ⟨?_, ?_, ?_, ?_, ?_⟩
    · rw [if_pos h]
      exact div_nonneg (Nat.cast_nonneg _) (Nat.cast_nonneg _)
    · rw [if_pos h]
      refine div_le_one_of_le₀ ?_ (Nat.cast_nonneg _)
      exact_mod_cast Nat.le_add_right _ _
    · intro _
      rw [if_pos h]
      norm_cast
    · intro hlt
      omega
    · exact le_trans (countP_pos_neg_le _) (List.length_filterMap_le _ _)
  · refine ⟨?_, ?_, ?_, ?_, ?_⟩
    · rw [if_neg h]
    · rw [if_neg h]
      exact zero_le_one
    · intro hge
      exact absurd hge h
    · intro hlt
      refine ⟨if_neg h, ?_⟩
      exact decide_eq_true hlt
    · exact le_trans (countP_pos_neg_le _) (List.length_filterMap_le _ _)

/-- Two closed trades used to exercise the win-rate formula. -/
def twoTrades : List TradeRecord :=
  [ mkTrade ("W1") 1 ("asian") ("VolBreakout") (6/10) 10
  , mkTrade ("W2") 2 ("asian") ("VolBreakout") (6/10) (-5) ]

/-- Witness for C4: with one winner and one loser the sample threshold is
met and the win rate is exactly winners over decided trades. -/
theorem compute_metrics_win_rate_witness :
    (compute_metrics twoTrades).win_rate =
      ((compute_metrics twoTrades).winners : ℚ) /
        (((compute_metrics twoTrades).winners : ℚ) +
          ((compute_metrics twoTrades).losers : ℚ)) :=
  (compute_metrics_win_rate twoTrades).2.2.1 (by with_unfolding_all decide)

/-- C5: every pattern returned by `discover_patterns` carries an evidence
list of at least `MIN_EVIDENCE` trade ids; smaller segments are omitted
entirely. -/
theorem discover_patterns_min_evidence (trades : List TradeRecord)
    (dims : List DimKind) (p : Pattern)
    (hp : p ∈ discover_patterns trades dims) :
    MIN_EVIDENCE ≤ p.evidence.length := by
  rcases List.mem_flatMap.mp hp with ⟨d, _, hpd⟩
  unfold patternsForDim at hpd
  rcases List.mem_filterMap.mp hpd with ⟨k, _, hk⟩
  by_cases hc : MIN_EVIDENCE ≤ (segmentOf trades d k).length
  · rw [if_pos hc] at hk
    have hp2 := Option.some.inj hk
    subst hp2
    simpa using hc
  · rw [if_neg hc] at hk
    exact absurd hk (by simp)

/-- Witness for C5: the Scenario A pattern is discovered and its evidence
has at least `MIN_EVIDENCE` entries. -/
theorem discover_patterns_min_evidence_witness :
    scenAPattern ∈ discover_patterns scenATrades [DimKind.session] ∧
    MIN_EVIDENCE ≤ scenAPattern.evidence.length :=
  ⟨by with_unfolding_all decide,
    discover_patterns_min_evidence scenATrades [DimKind.session] scenAPattern
      (by with_unfolding_all decide)⟩

/-- The session-reduce proposal Scenario A is expected to produce. -/
def scenAAdj : StrategyAdjustment :=
  mkAdj .sessionReduce ("asian") (1/10) (1/20) scenAPattern

/-- C7: a WEAK pattern on a session dimension always yields a
`session_reduce` proposal whose new maximum position size is exactly half
the old value; in particular the five asian trades of Scenario A (one win,
four losses, win rate 0.20) produce a WEAK pattern evidencing all five
trade ids and the halving proposal. -/
theorem session_reduce_halves :
    (∀ (cfg : AdjustConfig) (ps : List Pattern) (p : Pattern),
        p ∈ ps → p.dim = DimKind.session → p.edge = Edge.weak →
        ∃ a, a ∈ generate_adjustments ps [] cfg ∧
          a.adjType = AdjType.sessionReduce ∧ a.target = p.key ∧
          a.oldValue = cfg.sessionMax p.key ∧
          a.newValue = cfg.sessionMax p.key / 2) ∧
    (scenAPattern ∈ discover_patterns scenATrades [DimKind.session] ∧
      scenAPattern.edge = Edge.weak ∧ scenAPattern.key = ("asian") ∧
      scenAPattern.win_rate = 1/5 ∧
      scenAPattern.evidence = [("T1"), ("T2"), ("T3"), ("T4"), ("T5")]) ∧
    (scenAAdj ∈ generate_adjustments
        (discover_patterns scenATrades [DimKind.session]) [] scenCfg ∧
      scenAAdj.adjType = AdjType.sessionReduce ∧
      scenAAdj.target = ("asian") ∧
      scenAAdj.oldValue = scenCfg.sessionMax ("asian") ∧
      scenAAdj.newValue = scenCfg.sessionMax ("asian") / 2) := by
  refine ⟨?_, by with_unfolding_all decide, by with_unfolding_all decide⟩
  intro cfg ps p hmem hdim hedge
  refine ⟨mkAdj .sessionReduce p.key (cfg.sessionMax p.key)
    (cfg.sessionMax p.key / 2) p, ?_, rfl, rfl, rfl, rfl⟩
  apply List.mem_filter.mpr
  refine ⟨?_, by simp [unresolvedFor]⟩
  apply List.mem_flatMap.mpr
  refine ⟨p, hmem, ?_⟩
  simp [rulesFor, hdim, hedge]

/-- Witness for C7: the universal rule applied to the concretely discovered
Scenario A pattern. -/
theorem session_reduce_halves_witness :
    ∃ a, a ∈ generate_adjustments
        (discover_patterns scenATrades [DimKind.session]) [] scenCfg ∧
      a.adjType = AdjType.sessionReduce ∧ a.target = scenAPattern.key ∧
      a.oldValue = scenCfg.sessionMax scenAPattern.key ∧
      a.newValue = scenCfg.sessionMax scenAPattern.key / 2 :=
  session_reduce_halves.1 scenCfg _ scenAPattern (by with_unfolding_all decide) rfl rfl

/-- C1: whenever the generator is omitted, or its single invocation raises
or returns a non-text value, or the returned text fails validation, the
call performs at most one generator invocation (no retry), returns the
deterministic rule-based report, sets the fallback flag with a reason, and
cites validation failure when validation was the cause. -/
theorem generate_report_fallback_on_failure
    (period : String) (trades : List TradeRecord) (m : PerformanceMetrics)
    (gen : Option (String → GenOutcome))
    (hfail : genFails gen (buildPrompt period trades m) period) :
    (generate_report period trades m gen).2 ≤ 1 ∧
    (generate_report period trades m gen).1.used_fallback = true ∧
    (generate_report period trades m gen).1.narrative =
      render_rule_based_report period trades m ∧
    (generate_report period trades m gen).1.fall_reason.isSome = true ∧
    (∀ f t, gen = some f → f (buildPrompt period trades m) = GenOutcome.ok t →
      (generate_report period trades m gen).1.fall_reason =
        some FallReason.validationFailed) := by
  cases gen with
  | none =>
    refine ⟨Nat.zero_le 1, rfl, rfl, rfl, ?_⟩
    intro f t hf
    exact absurd hf (by simp)
  | some f =>
    cases hfo : f (buildPrompt period trades m) with
    | exn =>
      have hgr : generate_report period trades m (some f) =
          (fallbackReport period trades m FallReason.generatorError, 1) := by
        simp [generate_report, hfo]
      rw [hgr]
      refine ⟨by omega, rfl, rfl, rfl, ?_⟩
      intro f2 t hf2 heq
      injection hf2 with hf2
      subst hf2
      rw [hfo] at heq
      exact absurd heq (by simp)
    | nonText =>
      have hgr : generate_report period trades m (some f) =
          (fallbackReport period trades m FallReason.generatorError, 1) := by
        simp [generate_report, hfo]
      rw [hgr]
      refine ⟨by omega, rfl, rfl, rfl, ?_⟩
      intro f2 t hf2 heq
      injection hf2 with hf2
      subst hf2
      rw [hfo] at heq
      exact absurd heq (by simp)
    | ok t =>
      have hval : validate t period = false := by
        simpa [genFails, hfo] using hfail
      have hgr : generate_report period trades m (some f) =
          (fallbackReport period trades m FallReason.validationFailed, 1) := by
        simp [generate_report, hfo, hval]
      rw [hgr]
      exact ⟨by omega, rfl, rfl, rfl, fun _ _ _ _ => rfl⟩

/-- Witness for C1: a generator returning text without the required
sections is rejected by validation, the call falls back with the
validation-failure reason, and the generator was invoked only once. -/
theorem generate_report_fallback_on_failure_witness :
    (generate_report ("2026-02-23") [] (compute_metrics [])
        (some (fun _ => GenOutcome.ok ("garbage")))).1.fall_reason =
      some FallReason.validationFailed ∧
    (generate_report ("2026-02-23") [] (compute_metrics [])
        (some (fun _ => GenOutcome.ok ("garbage")))).2 ≤ 1 := by
  have h := generate_report_fallback_on_failure ("2026-02-23") [] (compute_metrics [])
    (some (fun _ => GenOutcome.ok ("garbage")))
    (by decide : validate ("garbage") ("2026-02-23") = false)
  exact ⟨h.2.2.2.2 _ ("garbage") rfl rfl, h.1⟩

/-- C3: the lifecycle operations enforce the monotonic transition table:
`apply` succeeds exactly from `approved`, `approve` and `reject` succeed
exactly from `proposed`; every other request returns `invalidTransition`
and leaves the stored adjustment unchanged. -/
theorem lifecycle_transition_table (a : StrategyAdjustment) :
    ((∃ b, applyAdj a = Except.ok b) ↔ a.status = AdjStatus.approved) ∧
    ((∃ b, approveAdj a = Except.ok b) ↔ a.status = AdjStatus.proposed) ∧
    ((∃ b, rejectAdj a = Except.ok b) ↔ a.status = AdjStatus.proposed) ∧
    (∀ b, applyAdj a = Except.ok b → b.status = AdjStatus.applied) ∧
    (∀ b, approveAdj a = Except.ok b → b.status = AdjStatus.approved) ∧
    (∀ b, rejectAdj a = Except.ok b → b.status = AdjStatus.rejected) ∧
    (a.status ≠ AdjStatus.approved →
      applyAdj a = Except.error TransErr.invalidTransition ∧
      lifecycleRun applyAdj a = a) ∧
    (a.status ≠ AdjStatus.proposed →
      approveAdj a = Except.error TransErr.invalidTransition ∧
      lifecycleRun approveAdj a = a ∧
      rejectAdj a = Except.error TransErr.invalidTransition ∧
      lifecycleRun rejectAdj a = a) := by
  obtain ⟨i, ty, tg, ov, nv, j, st, ev⟩ := a
  cases st <;>
    simp [applyAdj, approveAdj, rejectAdj, setStatus, allowedTransition, lifecycleRun]

/-- An adjustment already in status `applied` (Scenario E). -/
def adjApplied : StrategyAdjustment :=
  { id := ("A1")
    adjType := AdjType.sessionReduce
    target := ("asian")
    oldValue := 1/10
    newValue := 1/20
    justification := ("")
    status := AdjStatus.applied
    evidence := [("T1")] }

/-- Witness for C3 (Scenario E): approving an already applied adjustment is
rejected with `invalidTransition` and the stored value stays unchanged. -/
theorem lifecycle_transition_table_witness :
    approveAdj adjApplied = Except.error TransErr.invalidTransition ∧
    lifecycleRun approveAdj adjApplied = adjApplied := by
  have h := (lifecycle_transition_table adjApplied).2.2.2.2.2.2.2
    (by with_unfolding_all decide)
  exact ⟨h.1, h.2.1⟩

/-- C9: the trade history query returns only trades matching the filter,
drawn from the store, ordered by timestamp descending (newest first); when
the matching set fits inside the limit the result is exactly the matching
set. -/
theorem query_history_ordered (store : List TradeRecord) (q : QueryFilter) :
    List.Sorted newerFirst (query_history store q) ∧
    (∀ t, t ∈ query_history store q → matchesFilter q t = true ∧ t ∈ store) ∧
    ((store.filter (matchesFilter q)).length ≤ q.limit →
      List.Perm (query_history store q) (store.filter (matchesFilter q))) := by
  refine ⟨?_, ?_, ?_⟩
  · exact List.Pairwise.sublist (List.take_sublist _ _)
      (List.sorted_insertionSort newerFirst (store.filter (matchesFilter q)))
  · intro t ht
    have h1 : t ∈ List.insertionSort newerFirst (store.filter (matchesFilter q)) :=
      List.mem_of_mem_take ht
    have h2 : t ∈ store.filter (matchesFilter q) :=
      (List.perm_insertionSort newerFirst _).mem_iff.mp h1
    have h3 := List.mem_filter.mp h2
    exact ⟨h3.2, h3.1⟩
  · intro hlen
    have hl : (List.insertionSort newerFirst
        (store.filter (matchesFilter q))).length ≤ q.limit := by
      rw [(List.perm_insertionSort newerFirst _).length_eq]
      exact hlen
    unfold query_history
    rw [List.take_of_length_le hl]
    exact List.perm_insertionSort _ _

/-- A small concrete store for the query witness. -/
def storeC : List TradeRecord :=
  [ mkTrade ("H1") 5 ("asian") ("VolBreakout") (6/10) 10
  , mkTrade ("H2") 9 ("london") ("Pullback") (6/10) (-5)
  , mkTrade ("H3") 7 ("asian") ("VolBreakout") (6/10) 3 ]

/-- A concrete query filter selecting the VolBreakout strategy. -/
def qC : QueryFilter :=
  { strategyF := some ("VolBreakout"), symbolF := none, limit := 10 }

/-- Witness for C9: a trade found in the concrete query result matches the
filter and comes from the store. -/
theorem query_history_ordered_witness :
    matchesFilter qC (mkTrade ("H3") 7 ("asian") ("VolBreakout") (6/10) 3) = true ∧
    mkTrade ("H3") 7 ("asian") ("VolBreakout") (6/10) 3 ∈ storeC :=
  (query_history_ordered storeC qC).2.1
    (mkTrade ("H3") 7 ("asian") ("VolBreakout") (6/10) 3)
    (by with_unfolding_all decide)

/-- Updating the store keeps trade ids, so the search for a given id finds
the updated image of the originally found record. -/
theorem find?_update (store : List TradeRecord) (tid : String) (oc : Outcome) :
    (store.map (fun u => if u.id == tid then applyOutcome u oc else u)).find?
        (fun u => u.id == tid) =
      (store.find? (fun u => u.id == tid)).map
        (fun u => if u.id == tid then applyOutcome u oc else u) := by
  have hpf : ((fun u : TradeRecord => u.id == tid) ∘
      (fun u => if u.id == tid then applyOutcome u oc else u)) =
      (fun u : TradeRecord => u.id == tid) := by
    funext u
    by_cases h : (u.id == tid) = true
    · rw [Function.comp_apply, if_pos h]
      simp [applyOutcome, h]
    · rw [Function.comp_apply, if_neg h]
  rw [List.find?_map, hpf]

/-- C10: recording an outcome succeeds exactly for an existing trade whose
outcome is still absent; unknown ids and already recorded trades are
rejected as errors leaving the store unchanged, and after a successful
recording any further recording for the same id fails. -/
theorem record_outcome_once (store : List TradeRecord) (tid : String) (oc : Outcome) :
    ((∃ s, record_outcome store tid oc = Except.ok s) ↔
      (∃ t, store.find? (fun u => u.id == tid) = some t ∧ t.outcome = none)) ∧
    (∀ e, record_outcome store tid oc = Except.error e →
      runRecordOutcome store tid oc = (store, false)) ∧
    (∀ s oc2, record_outcome store tid oc = Except.ok s →
      record_outcome s tid oc2 = Except.error RecErr.alreadyRecorded) := by
  refine ⟨?_, ?_, ?_⟩
  · cases hf : store.find? (fun u => u.id == tid) with
    | none => simp [record_outcome, hf]
    | some t =>
      cases hto : t.outcome with
      | none => simp [record_outcome, hf, hto]
      | some oc0 => simp [record_outcome, hf, hto]
  · intro e he
    unfold runRecordOutcome
    rw [he]
  · intro s oc2 hok
    cases hf : store.find? (fun u => u.id == tid) with
    | none => simp [record_outcome, hf] at hok
    | some t =>
      cases hto : t.outcome with
      | some oc0 => simp [record_outcome, hf, hto] at hok
      | none =>
        have hs : store.map
            (fun u => if u.id == tid then applyOutcome u oc else u) = s := by
          simpa [record_outcome, hf, hto] using hok
        have hid : (t.id == tid) = true := by
          have h2 := List.find?_some hf
          simpa using h2
        subst hs
        have hfind := find?_update store tid oc
        rw [hf] at hfind
        unfold record_outcome
        rw [hfind]
        have hideq : t.id = tid := by simpa using hid
        simp [hid, hideq, applyOutcome]

/-- A store holding one open trade. -/
def storeOpen : List TradeRecord := [mkOpen ("T9") 1]

/-- A concrete outcome payload. -/
def ocW : Outcome := { pnl := 5, pnl_r := none }

/-- Witness for C10: recording the outcome of the open trade succeeds, and
a call for an unknown id leaves the store unchanged with an error. -/
theorem record_outcome_once_witness :
    (∃ s, record_outcome storeOpen ("T9") ocW = Except.ok s) ∧
    runRecordOutcome storeOpen ("T8") ocW = (storeOpen, false) := by
  refine ⟨?_, ?_⟩
  · exact (record_outcome_once storeOpen ("T9") ocW).1.mpr
      ⟨mkOpen ("T9") 1, by with_unfolding_all decide, by with_unfolding_all decide⟩
  · exact (record_outcome_once storeOpen ("T8") ocW).2.1 RecErr.notFound
      (by with_unfolding_all rfl)

end TradeMemory
